import Mathlib

/-!
Shallow embedding of the HLK-LD2450 serial protocol codec
(`serial_protocol.py`): command frame construction, acknowledgement
status interpretation, the named command builders, and the telemetry
frame decoder, together with theorems settling the claims about them.

Byte buffers are modelled as `List Nat` (each element a byte value);
Python slices, `int.from_bytes` and `bytes.fromhex` are embedded as
total Lean functions with the same semantics on byte lists. A Python
`ValueError` raised before any write is modelled as `none` / `.error`.
-/

set_option maxHeartbeats 1000000

namespace LD2450

/-- Constant `COMMAND_HEADER = bytes.fromhex("FD FC FB FA")`. -/
def COMMAND_HEADER : List Nat := [0xFD, 0xFC, 0xFB, 0xFA]

/-- Constant `COMMAND_TAIL = bytes.fromhex("04 03 02 01")`. -/
def COMMAND_TAIL : List Nat := [0x04, 0x03, 0x02, 0x01]

/-- Constant `REPORT_HEADER = bytes.fromhex("AA FF 03 00")`. -/
def REPORT_HEADER : List Nat := [0xAA, 0xFF, 0x03, 0x00]

/-- Constant `REPORT_TAIL = bytes.fromhex("55 CC")`. -/
def REPORT_TAIL : List Nat := [0x55, 0xCC]

/-- Constant `POSSIBLE_BAUDRATES` from the source. -/
def POSSIBLE_BAUDRATES : List Nat :=
  [9600, 19200, 38400, 57600, 115200, 230400, 256000, 460800]

/-- Python slice `l[a:b]` (for `a ≤ b`): it never raises, and silently
truncates when the buffer is shorter than `b`. -/
def pySlice (l : List Nat) (a b : Nat) : List Nat := (l.drop a).take (b - a)

/-- Little-endian value of a byte list, as used by
`int.from_bytes(bs, byteorder="little")`. -/
def bytesToNatLE : List Nat → Nat
  | [] => 0
  | b :: bs => b + 256 * bytesToNatLE bs

/-- Embedding of `int.from_bytes(bs, byteorder="little", signed=True)`: two's-complement
interpretation; the empty byte string gives `0`. -/
def intFromBytesLESigned (bs : List Nat) : Int :=
  if bytesToNatLE bs < 2 ^ (8 * bs.length - 1) then (bytesToNatLE bs : Int)
  else (bytesToNatLE bs : Int) - 2 ^ (8 * bs.length)

/-- Embedding of `_get_command_success(response)`: the status check
`int.from_bytes(response[8:10], byteorder="little", signed=True) == 0`,
also inlined in `send_command`. -/
def _get_command_success (response : List Nat) : Bool :=
  intFromBytesLESigned (pySlice response 8 10) == 0

/-- The command frame assembled by `send_command` / `_send_command`:
`COMMAND_HEADER + intra_frame_length + command_word + command_value + COMMAND_TAIL`. -/
def buildCommand (intraFrameLength commandWord commandValue : List Nat) : List Nat :=
  COMMAND_HEADER ++ intraFrameLength ++ commandWord ++ commandValue ++ COMMAND_TAIL

/-- Embedding of `int(n).to_bytes(2, byteorder="little")` for `0 ≤ n < 2^16` (the source
only uses the constants 2, 4 and 26 and a baud-rate index below 8, where the
`signed=True/False` variants agree). -/
def intToBytes2LE (n : Nat) : List Nat := [n % 256, n / 256 % 256]

/-- Specification-side definition (the comparison point for the
status-field and payload-field claims): the little-endian
two's-complement signed 16-bit integer formed by two bytes. -/
def signed16LE (b0 b1 : Nat) : Int :=
  if b0 + 256 * b1 < 2 ^ 15 then ((b0 + 256 * b1 : Nat) : Int)
  else ((b0 + 256 * b1 : Nat) : Int) - 2 ^ 16

/-- Specification-side definition: the little-endian two's-complement
signed 32-bit integer formed by four bytes. -/
def signed32LE (b0 b1 b2 b3 : Nat) : Int :=
  if b0 + 256 * b1 + 65536 * b2 + 16777216 * b3 < 2 ^ 31
  then ((b0 + 256 * b1 + 65536 * b2 + 16777216 * b3 : Nat) : Int)
  else ((b0 + 256 * b1 + 65536 * b2 + 16777216 * b3 : Nat) : Int) - 2 ^ 32

/-- Predicate `bytesStartWith pat l`: true when `l` starts with `pat`. -/
def bytesStartWith : List Nat → List Nat → Bool
  | [], _ => true
  | _ :: _, [] => false
  | p :: ps, x :: xs => (p == x) && bytesStartWith ps xs

/-- Python's `pat in l` on bytes: `pat` occurs as a contiguous substring of
`l` (the empty pattern is contained in everything). -/
def bytesContain (pat l : List Nat) : Bool :=
  match l with
  | [] => bytesStartWith pat []
  | _ :: xs => bytesStartWith pat l || bytesContain pat xs

/-- The sign fix-up applied by `read_radar_data` to the `x`, `y` and `speed`
fields after a two's-complement read:
`x = x if x >= 0 else -(2**15) - x`. -/
def signMagFix (v : Int) : Int := if v ≥ 0 then v else -(2 ^ 15) - v

/-- Decoding of one `x`/`y`/`speed` field in `read_radar_data`: a
little-endian signed 16-bit read followed by the sign fix-up. -/
def decodeXYSpeed (bs : List Nat) : Int := signMagFix (intFromBytesLESigned bs)

/-- The loop body of `read_radar_data` on one 8-byte target slice:
`x`, `y`, `speed` via `decodeXYSpeed` on `target_bytes[0:2]`, `[2:4]`,
`[4:6]`, and `distance_resolution` as an unsigned little-endian read of
`target_bytes[6:8]`. -/
def decodeTarget (t : List Nat) : List Int :=
  [decodeXYSpeed (pySlice t 0 2), decodeXYSpeed (pySlice t 2 4),
   decodeXYSpeed (pySlice t 4 6), (bytesToNatLE (pySlice t 6 8) : Int)]

/-- The three distinct rejection reasons of `read_radar_data` (each a
distinct printed message and `return None` in the source). -/
inductive DecodeError where
  | missingHeader
  | missingTail
  | wrongLength
deriving DecidableEq, Repr

/-- Embedding of `read_radar_data(serial_port_line)`: header-marker containment check,
then tail-marker containment check, then exact-length-30 check, then the
three 8-byte target slices at offsets [4:12], [12:20], [20:28], decoded
and flattened into a 12-integer output. -/
def read_radar_data (serial_port_line : List Nat) : Except DecodeError (List Int) :=
  if bytesContain REPORT_HEADER serial_port_line = false then .error .missingHeader
  else if bytesContain REPORT_TAIL serial_port_line = false then .error .missingTail
  else if serial_port_line.length ≠ 30 then .error .wrongLength
  else .ok (decodeTarget (pySlice serial_port_line 4 12)
    ++ decodeTarget (pySlice serial_port_line 12 20)
    ++ decodeTarget (pySlice serial_port_line 20 28))

/-- True exactly when the decoder produced no target output. -/
def isDecodeFailure : Except DecodeError (List Int) → Bool
  | .error _ => true
  | .ok _ => false

/-- Frame of `enable_configuration_mode`: length `04 00`, word `FF 00`,
value `01 00`. -/
def enable_configuration_mode_frame : List Nat :=
  buildCommand (intToBytes2LE 4) [0xFF, 0x00] [0x01, 0x00]

/-- Frame of `end_configuration_mode`: length `02 00`, word `FE 00`, no value. -/
def end_configuration_mode_frame : List Nat :=
  buildCommand (intToBytes2LE 2) [0xFE, 0x00] []

/-- Frame of `single_target_tracking`: length `02 00`, word `80 00`, no value. -/
def single_target_tracking_frame : List Nat :=
  buildCommand (intToBytes2LE 2) [0x80, 0x00] []

/-- Frame of `multi_target_tracking`: length `02 00`, word `90 00`, no value. -/
def multi_target_tracking_frame : List Nat :=
  buildCommand (intToBytes2LE 2) [0x90, 0x00] []

/-- Frame of `query_target_tracking`: length `02 00`, word `91 00`, no value. -/
def query_target_tracking_frame : List Nat :=
  buildCommand (intToBytes2LE 2) [0x91, 0x00] []

/-- Frame of `read_firmware_version`: length `02 00`, word `A0 00`, no value. -/
def read_firmware_version_frame : List Nat :=
  buildCommand (intToBytes2LE 2) [0xA0, 0x00] []

/-- Frame of `restore_factory_settings`: length `02 00`, word `A2 00`, no value. -/
def restore_factory_settings_frame : List Nat :=
  buildCommand (intToBytes2LE 2) [0xA2, 0x00] []

/-- Frame of `restart_module`: length `02 00`, word `A3 00`, no value. -/
def restart_module_frame : List Nat :=
  buildCommand (intToBytes2LE 2) [0xA3, 0x00] []

/-- Frame of `bluetooth_setup`: length `04 00`, word `A4 00`,
value `01 00` to enable or `00 00` to disable. -/
def bluetooth_setup_frame (bluetooth_on : Bool) : List Nat :=
  buildCommand (intToBytes2LE 4) [0xA4, 0x00]
    (if bluetooth_on then [0x01, 0x00] else [0x00, 0x00])

/-- Frame of `get_mac_address`: length `04 00`, word `A5 00`, value `01 00`. -/
def get_mac_address_frame : List Nat :=
  buildCommand (intToBytes2LE 4) [0xA5, 0x00] [0x01, 0x00]

/-- Frame of `query_zone_filtering`: length `02 00`, word `C1 00`, no value. -/
def query_zone_filtering_frame : List Nat :=
  buildCommand (intToBytes2LE 2) [0xC1, 0x00] []

/-- Embedding of `set_serial_port_baud_rate(baud_rate)`: raise `ValueError` before any
I/O unless the rate is one of `POSSIBLE_BAUDRATES`; otherwise send the
frame with length `04 00`, word `A1 00`, and the rate's index in the
list as a 2-byte little-endian value. -/
def set_serial_port_baud_rate (baud_rate : Nat) : Except String (List Nat) :=
  if baud_rate ∉ POSSIBLE_BAUDRATES then
    .error ("The baud rate must be one of the listed rates")
  else
    .ok (buildCommand (intToBytes2LE 4) [0xA1, 0x00]
      (intToBytes2LE (POSSIBLE_BAUDRATES.indexOf baud_rate)))

/-- True when the embedded operation raised `ValueError` before any I/O. -/
def isValueError : Except String (List Nat) → Bool
  | .error _ => true
  | .ok _ => false

/-- Embedding of `read_firmware_version(ser)`: on a failed status, `None`; otherwise
the string `V{type}.{major}.{minor}` from the little-endian signed fields
at `response[10:12]`, `[12:14]`, `[14:18]`. -/
def read_firmware_version (response : List Nat) : Option String :=
  if _get_command_success response = false then none
  else some ("V" ++ toString (intFromBytesLESigned (pySlice response 10 12))
    ++ "." ++ toString (intFromBytesLESigned (pySlice response 12 14))
    ++ "." ++ toString (intFromBytesLESigned (pySlice response 14 18)))

/-- Embedding of `query_zone_filtering(ser)`: on a failed status, `None`; otherwise the
13 little-endian signed 16-bit fields at `response[10:12]` … `[34:36]`
(mode, then three zones of four corner coordinates). -/
def query_zone_filtering (response : List Nat) : Option (List Int) :=
  if _get_command_success response = false then none
  else some [intFromBytesLESigned (pySlice response 10 12),
    intFromBytesLESigned (pySlice response 12 14),
    intFromBytesLESigned (pySlice response 14 16),
    intFromBytesLESigned (pySlice response 16 18),
    intFromBytesLESigned (pySlice response 18 20),
    intFromBytesLESigned (pySlice response 20 22),
    intFromBytesLESigned (pySlice response 22 24),
    intFromBytesLESigned (pySlice response 24 26),
    intFromBytesLESigned (pySlice response 26 28),
    intFromBytesLESigned (pySlice response 28 30),
    intFromBytesLESigned (pySlice response 30 32),
    intFromBytesLESigned (pySlice response 32 34),
    intFromBytesLESigned (pySlice response 34 36)]

/-- Hex-digit recognition of `bytes.fromhex` (both cases accepted). -/
def hexDigitVal (c : Char) : Option Nat :=
  if '0' ≤ c ∧ c ≤ '9' then some (c.toNat - 48)
  else if 'a' ≤ c ∧ c ≤ 'f' then some (c.toNat - 87)
  else if 'A' ≤ c ∧ c ≤ 'F' then some (c.toNat - 55)
  else none

/-- Embedding of `bytes.fromhex`: skip spaces between byte pairs, then read exactly two
hex digits per byte; any other character — such as the `-` sign that
`f"{v:04x}"` produces for a negative `v` — raises `ValueError`, modelled
as `none`. (The strings built by `set_zone_filtering` use only `' '` as a
separator, so only space skipping is modelled.) -/
def fromhex : List Char → Option (List Nat)
  | [] => some []
  | c :: cs =>
    if c = ' ' then fromhex cs
    else
      match hexDigitVal c with
      | none => none
      | some hi =>
        match cs with
        | [] => none
        | c2 :: cs2 =>
          match hexDigitVal c2 with
          | none => none
          | some lo => (fromhex cs2).map (fun r => (16 * hi + lo) :: r)

/-- Lowercase hex digits of a natural number, as Python's `"%x"` writes them. -/
def natToHex (n : Nat) : List Char := Nat.toDigits 16 n

/-- Python `format(v, "04x")`: lowercase hex, zero-padded to total width 4;
for a negative value the sign is written first and counts toward the
width, so `-1000` formats as `-3e8` and `-1` as `-001`. -/
def pyFormat04x (v : Int) : List Char :=
  if 0 ≤ v then
    List.replicate (4 - (natToHex v.toNat).length) '0' ++ natToHex v.toNat
  else
    '-' :: (List.replicate (3 - (natToHex (-v).toNat).length) '0' ++ natToHex (-v).toNat)

/-- Single-space joining of the 13 per-field substrings inside the
f-string of `set_zone_filtering`. -/
def joinSp : List (List Char) → List Char
  | [] => []
  | [x] => x
  | x :: xs => x ++ ' ' :: joinSp xs

/-- The hex string built by the f-string of `set_zone_filtering`. -/
def zoneHexChars (fields : List Int) : List Char := joinSp (fields.map pyFormat04x)

/-- The `command_value` of `set_zone_filtering`: `bytes.fromhex` of the
concatenated per-field 4-hex-digit strings; `none` models the
`ValueError` raised before any write. -/
def setZoneFilteringValue (fields : List Int) : Option (List Nat) :=
  fromhex (zoneHexChars fields)

/-- Embedding of `set_zone_filtering(...)`: the frame written to the stream (length
field `1A 00` = 26, word `C2 00`), or `none` when the hex value
construction raises before any I/O. -/
def set_zone_filtering (mode r1x1 r1y1 r1x2 r1y2 r2x1 r2y1 r2x2 r2y2 r3x1 r3y1 r3x2 r3y2 :
    Int) : Option (List Nat) :=
  (setZoneFilteringValue
      [mode, r1x1, r1y1, r1x2, r1y2, r2x1, r2y1, r2x2, r2y2, r3x1, r3y1, r3x2, r3y2]).map
    (fun v => buildCommand (intToBytes2LE 26) [0xC2, 0x00] v)

/-- Re-parse of an emitted frame: the little-endian intra-frame length
field at bytes [4:6]. -/
def lengthField (frame : List Nat) : Nat := bytesToNatLE (pySlice frame 4 6)

/-- Word-plus-value byte count of an emitted frame: everything between the
6-byte prefix (header and length field) and the 4-byte tail, i.e.
`len(command_word) + len(command_value)`. -/
def wordValueLen (frame : List Nat) : Nat := frame.length - 10

theorem bytesToNatLE_pair (b0 b1 : Nat) : bytesToNatLE [b0, b1] = b0 + 256 * b1 := by
  simp [bytesToNatLE]

theorem pySlice_eight (pre : List Nat) (b0 b1 : Nat) (rest : List Nat)
    (hpre : pre.length = 8) :
    pySlice (pre ++ b0 :: b1 :: rest) 8 10 = [b0, b1] := by
  unfold pySlice
  rw [show (8 : Nat) = pre.length from hpre.symm, List.drop_left, hpre]
  rfl

theorem drop_append_length (pre l2 : List Nat) (i : Nat) :
    (pre ++ l2).drop (pre.length + i) = l2.drop i := by
  induction pre with
  | nil => simp
  | cons x xs ih => simpa [Nat.succ_add] using ih

theorem pySlice_append (pre l2 : List Nat) (i b : Nat) :
    pySlice (pre ++ l2) (pre.length + i) b = pySlice l2 i (b - pre.length) := by
  unfold pySlice
  rw [drop_append_length pre l2 i]
  congr 1
  omega

theorem intFromBytesLESigned_pair (b0 b1 : Nat) :
    intFromBytesLESigned [b0, b1] = signed16LE b0 b1 := by
  unfold intFromBytesLESigned signed16LE
  rw [bytesToNatLE_pair]
  simp only [List.length_cons, List.length_nil]

theorem intFromBytesLESigned_quad (b0 b1 b2 b3 : Nat) :
    intFromBytesLESigned [b0, b1, b2, b3] = signed32LE b0 b1 b2 b3 := by
  unfold intFromBytesLESigned signed32LE
  rw [show bytesToNatLE [b0, b1, b2, b3]
      = b0 + 256 * b1 + 65536 * b2 + 16777216 * b3 from by simp [bytesToNatLE]; ring]
  simp only [List.length_cons, List.length_nil]

theorem mem_pySlice (l : List Nat) (a b x : Nat) (hx : x ∈ pySlice l a b) : x ∈ l := by
  unfold pySlice at hx
  exact List.mem_of_mem_drop (List.mem_of_mem_take hx)

theorem pySlice_length (l : List Nat) (a b : Nat) (hab : a ≤ b) (hb : b ≤ l.length) :
    (pySlice l a b).length = b - a := by
  unfold pySlice
  rw [List.length_take, List.length_drop]
  omega

theorem decodeXYSpeed_bounds (bs : List Nat) (hlen : bs.length = 2)
    (hb : ∀ b ∈ bs, b < 256) :
    -32767 ≤ decodeXYSpeed bs ∧ decodeXYSpeed bs ≤ 32767 := by
  rcases bs with _ | ⟨b0, _ | ⟨b1, _ | ⟨b2, bs⟩⟩⟩ <;> simp_all
  have h0 : b0 < 256 := hb.1
  have h1 : b1 < 256 := hb.2
  unfold decodeXYSpeed signMagFix intFromBytesLESigned
  rw [bytesToNatLE_pair]
  simp only [List.length_cons, List.length_nil]
  norm_num
  split_ifs <;> omega

theorem bytesToNatLE_pair_bound (bs : List Nat) (hlen : bs.length = 2)
    (hb : ∀ b ∈ bs, b < 256) : bytesToNatLE bs ≤ 65535 := by
  rcases bs with _ | ⟨b0, _ | ⟨b1, _ | ⟨b2, bs⟩⟩⟩ <;> simp_all
  rw [bytesToNatLE_pair]
  omega

theorem decodeTarget_bounds (t : List Nat) (hlen : t.length = 8)
    (hb : ∀ b ∈ t, b < 256) :
    ∃ x y s d, decodeTarget t = [x, y, s, d]
      ∧ (-32767 ≤ x ∧ x ≤ 32767) ∧ (-32767 ≤ y ∧ y ≤ 32767)
      ∧ (-32767 ≤ s ∧ s ≤ 32767) ∧ (0 ≤ d ∧ d ≤ 65535) := by
  have hmem : ∀ a b : Nat, ∀ x ∈ pySlice t a b, x < 256 :=
    fun a b x hx => hb x (mem_pySlice t a b x hx)
  have hlen' : ∀ a b : Nat, a ≤ b → b ≤ 8 → (pySlice t a b).length = b - a :=
    fun a b hab hb8 => pySlice_length t a b hab (by omega)
  refine ⟨_, _, _, _, rfl, ?_, ?_, ?_, ?_⟩
  · exact decodeXYSpeed_bounds _ (hlen' 0 2 (by omega) (by omega)) (hmem 0 2)
  · exact decodeXYSpeed_bounds _ (hlen' 2 4 (by omega) (by omega)) (hmem 2 4)
  · exact decodeXYSpeed_bounds _ (hlen' 4 6 (by omega) (by omega)) (hmem 4 6)
  · have := bytesToNatLE_pair_bound _ (hlen' 6 8 (by omega) (by omega)) (hmem 6 8)
    constructor
    · positivity
    · exact_mod_cast this

theorem fromhex_chars :
    ∀ n s, s.length ≤ n → ∀ r, fromhex s = some r →
      ∀ c ∈ s, c = ' ' ∨ (hexDigitVal c).isSome = true := by
  intro n
  induction n with
  | zero =>
    intro s hs r h c hc
    have hnil : s = [] := List.length_eq_zero.mp (by omega)
    subst hnil
    simp at hc
  | succ n ih =>
    intro s hs r h c hc
    rcases s with _ | ⟨c1, cs⟩
    · simp at hc
    simp only [List.length_cons] at hs
    unfold fromhex at h
    by_cases hsp : c1 = ' '
    · rw [if_pos hsp] at h
      rcases List.mem_cons.mp hc with rfl | hc2
      · exact Or.inl hsp
      · exact ih cs (by omega) r h c hc2
    · rw [if_neg hsp] at h
      rcases hd1 : hexDigitVal c1 with _ | hi
      · simp [hd1] at h
      simp only [hd1] at h
      rcases cs with _ | ⟨c2, cs2⟩
      · simp at h
      simp only [List.length_cons] at hs
      rcases hd2 : hexDigitVal c2 with _ | lo
      · simp [hd2] at h
      simp only [hd2, Option.map_eq_some'] at h
      obtain ⟨r2, hr2, -⟩ := h
      rcases List.mem_cons.mp hc with rfl | hc2
      · exact Or.inr (by simp [hd1])
      rcases List.mem_cons.mp hc2 with rfl | hc3
      · exact Or.inr (by simp [hd2])
      · exact ih cs2 (by omega) r2 hr2 c hc3

theorem fromhex_some_no_dash (s : List Char) (r : List Nat) (h : fromhex s = some r) :
    ¬ '-' ∈ s := by
  intro hmem
  rcases fromhex_chars s.length s le_rfl r h '-' hmem with h1 | h2
  · exact absurd h1 (by decide)
  · exact absurd h2 (by decide)

theorem mem_joinSp {c : Char} :
    ∀ (L : List (List Char)) (x : List Char), x ∈ L → c ∈ x → c ∈ joinSp L := by
  intro L
  induction L with
  | nil => intro x hx _; simp at hx
  | cons a L ih =>
    intro x hx hc
    rcases L with _ | ⟨b, L2⟩
    · rcases List.mem_cons.mp hx with rfl | h
      · simpa [joinSp] using hc
      · simp at h
    · rcases List.mem_cons.mp hx with rfl | h
      · simp only [joinSp, List.mem_append]
        exact Or.inl hc
      · have hrec := ih x h hc
        simp only [joinSp, List.mem_append, List.mem_cons]
        exact Or.inr (Or.inr hrec)

theorem pyFormat04x_neg (v : Int) (hv : v < 0) : '-' ∈ pyFormat04x v := by
  unfold pyFormat04x
  rw [if_neg (by omega)]
  exact List.mem_cons_self _ _

theorem setZoneValue_neg (fields : List Int) (v : Int) (hv : v ∈ fields)
    (hneg : v < 0) : setZoneFilteringValue fields = none := by
  rcases hres : setZoneFilteringValue fields with _ | r
  · rfl
  · exfalso
    unfold setZoneFilteringValue at hres
    have hdash : '-' ∈ zoneHexChars fields :=
      mem_joinSp (fields.map pyFormat04x) (pyFormat04x v)
        (List.mem_map_of_mem _ hv) (pyFormat04x_neg v hneg)
    exact fromhex_some_no_dash _ r hres hdash

/-- C1 (code-bug evidence): a response shorter than 10 bytes does NOT
always decode to `success = false`: the empty buffer — e.g. a read
timeout that returned nothing — and any too-short buffer whose truncated
status slice is all zero decode to `success = true`, because Python
slicing truncates silently and `int.from_bytes(b"") == 0`. The decode is
total (no out-of-bounds access), but the claimed `success = false` fails. -/
theorem C1_short_buffer_success_true :
    _get_command_success [] = true
      ∧ _get_command_success [0, 0, 0, 0, 0, 0, 0, 0] = true
      ∧ _get_command_success [0, 0, 0, 0, 0, 0, 0, 0, 0] = true
      ∧ _get_command_success [0, 0, 0, 0, 0, 0, 0, 0, 1] = false := by
  decide

/-- C6: for every response buffer of length at least 10 (written as
`pre ++ b0 :: b1 :: rest` with `pre.length = 8`, so `b0, b1` are the bytes
at offsets 8 and 9), the codec's success flag is true iff those two bytes,
read as a little-endian two's-complement signed 16-bit integer, equal 0. -/
theorem C6_status_iff_zero (pre : List Nat) (b0 b1 : Nat) (rest : List Nat)
    (hpre : pre.length = 8) (h0 : b0 < 256) (h1 : b1 < 256) :
    _get_command_success (pre ++ b0 :: b1 :: rest) = true ↔ signed16LE b0 b1 = 0 := by
  unfold _get_command_success
  rw [pySlice_eight pre b0 b1 rest hpre]
  unfold intFromBytesLESigned signed16LE
  rw [bytesToNatLE_pair]
  simp only [List.length_cons, List.length_nil, beq_iff_eq]

/-- C6 witness: instances of the status rule — `00 00` at offsets [8,10)
gives success, `01 00` and `FF FF` give failure. -/
theorem C6_status_iff_zero_witness :
    _get_command_success [0, 0, 0, 0, 0, 0, 0, 0, 0, 0] = true
      ∧ _get_command_success [0, 0, 0, 0, 0, 0, 0, 0, 1, 0] = false
      ∧ _get_command_success [0, 0, 0, 0, 0, 0, 0, 0, 255, 255] = false := by
  refine ⟨?_, ?_, ?_⟩
  · exact (C6_status_iff_zero [0, 0, 0, 0, 0, 0, 0, 0] 0 0 [] rfl (by decide)
      (by decide)).mpr (by decide)
  · rw [show ([0, 0, 0, 0, 0, 0, 0, 0, 1, 0] : List Nat)
      = [0, 0, 0, 0, 0, 0, 0, 0] ++ 1 :: 0 :: [] from rfl]
    rw [Bool.eq_false_iff]
    intro hcontra
    exact absurd ((C6_status_iff_zero [0, 0, 0, 0, 0, 0, 0, 0] 1 0 [] rfl (by decide)
      (by decide)).mp hcontra) (by decide)
  · rw [show ([0, 0, 0, 0, 0, 0, 0, 0, 255, 255] : List Nat)
      = [0, 0, 0, 0, 0, 0, 0, 0] ++ 255 :: 255 :: [] from rfl]
    rw [Bool.eq_false_iff]
    intro hcontra
    exact absurd ((C6_status_iff_zero [0, 0, 0, 0, 0, 0, 0, 0] 255 255 [] rfl (by decide)
      (by decide)).mp hcontra) (by decide)

/-- C2: the value decoded by `read_radar_data` for an `x`, `y` or `speed`
field whose 16-bit little-endian raw value is `raw` equals the
sign-magnitude rule: `-(raw % 2^15)` when the sign bit `raw / 2^15` is 1,
`+(raw % 2^15)` otherwise. -/
theorem C2_sign_magnitude (raw : Nat) (hraw : raw < 65536) :
    decodeXYSpeed [raw % 256, raw / 256]
      = if raw / 2 ^ 15 = 1 then -((raw % 2 ^ 15 : Nat) : Int)
        else ((raw % 2 ^ 15 : Nat) : Int) := by
  unfold decodeXYSpeed signMagFix intFromBytesLESigned
  rw [show bytesToNatLE [raw % 256, raw / 256] = raw from by simp [bytesToNatLE]; omega]
  simp only [List.length_cons, List.length_nil]
  norm_num
  split_ifs <;> omega

/-- C2 witness: raw `0x0010` decodes to `+16`, `0x8010` to `-16`,
`0x0000` to `0` and `0xFFFF` to `-32767`. -/
theorem C2_sign_magnitude_witness :
    decodeXYSpeed [0x10, 0x00] = 16 ∧ decodeXYSpeed [0x10, 0x80] = -16
      ∧ decodeXYSpeed [0x00, 0x00] = 0 ∧ decodeXYSpeed [0xFF, 0xFF] = -32767 := by
  refine ⟨?_, ?_, ?_, ?_⟩
  · simpa using C2_sign_magnitude 0x0010 (by norm_num)
  · simpa using C2_sign_magnitude 0x8010 (by norm_num)
  · simpa using C2_sign_magnitude 0x0000 (by norm_num)
  · simpa using C2_sign_magnitude 0xFFFF (by norm_num)

/-- C5: `read_radar_data` fails (produces no target output) iff the header
marker is absent, the tail marker is absent, or the length differs from 30;
the three checks happen in that order, each with its own distinct reason,
and a wrong-length buffer is rejected even when both markers are present. -/
theorem C5_reject_iff (l : List Nat) :
    (isDecodeFailure (read_radar_data l) = true
        ↔ bytesContain REPORT_HEADER l = false ∨ bytesContain REPORT_TAIL l = false
          ∨ l.length ≠ 30)
      ∧ (bytesContain REPORT_HEADER l = false → read_radar_data l = .error .missingHeader)
      ∧ (bytesContain REPORT_HEADER l = true → bytesContain REPORT_TAIL l = false →
          read_radar_data l = .error .missingTail)
      ∧ (bytesContain REPORT_HEADER l = true → bytesContain REPORT_TAIL l = true →
          l.length ≠ 30 → read_radar_data l = .error .wrongLength) := by
  refine ⟨?_, ?_, ?_, ?_⟩
  · unfold read_radar_data
    split_ifs with h1 h2 h3 <;> simp_all [isDecodeFailure]
  · intro h1
    unfold read_radar_data
    rw [if_pos h1]
  · intro h1 h2
    unfold read_radar_data
    rw [if_neg (by simp [h1]), if_pos h2]
  · intro h1 h2 h3
    unfold read_radar_data
    rw [if_neg (by simp [h1]), if_neg (by simp [h2]), if_pos h3]

/-- C5 witness: a 31-byte buffer with both markers present is rejected for
its length, with the distinct wrong-length reason. -/
theorem C5_reject_iff_witness :
    read_radar_data (REPORT_HEADER ++ List.replicate 25 0 ++ REPORT_TAIL)
      = .error .wrongLength :=
  (C5_reject_iff (REPORT_HEADER ++ List.replicate 25 0 ++ REPORT_TAIL)).2.2.2
    (by decide) (by decide) (by decide)

/-- C10: every buffer accepted by `read_radar_data` yields exactly 12
integers; every decoded `x`, `y`, `speed` lies in `[-32767, 32767]` and
every `distance_resolution` lies in `[0, 65535]`; and the raw field
`0x8000` decodes to `0`, the same result as raw `0x0000`. -/
theorem C10_output_shape (l : List Nat) (out : List Int)
    (hbytes : ∀ b ∈ l, b < 256) (hok : read_radar_data l = .ok out) :
    (∃ x1 y1 s1 d1 x2 y2 s2 d2 x3 y3 s3 d3,
        out = [x1, y1, s1, d1, x2, y2, s2, d2, x3, y3, s3, d3]
          ∧ (∀ v ∈ [x1, y1, s1, x2, y2, s2, x3, y3, s3], -32767 ≤ v ∧ v ≤ 32767)
          ∧ (∀ v ∈ [d1, d2, d3], 0 ≤ v ∧ v ≤ 65535))
      ∧ decodeXYSpeed [0x00, 0x80] = 0 ∧ decodeXYSpeed [0x00, 0x00] = 0 := by
  refine ⟨?_, by decide, by decide⟩
  unfold read_radar_data at hok
  by_cases h1 : bytesContain REPORT_HEADER l = false
  · rw [if_pos h1] at hok
    exact absurd hok (by simp)
  rw [if_neg h1] at hok
  by_cases h2 : bytesContain REPORT_TAIL l = false
  · rw [if_pos h2] at hok
    exact absurd hok (by simp)
  rw [if_neg h2] at hok
  by_cases h3 : l.length ≠ 30
  · rw [if_pos h3] at hok
    exact absurd hok (by simp)
  rw [if_neg h3] at hok
  · have hlen : l.length = 30 := by omega
    have hmem : ∀ a b : Nat, ∀ x ∈ pySlice l a b, x < 256 :=
      fun a b x hx => hbytes x (mem_pySlice l a b x hx)
    have hs1 : (pySlice l 4 12).length = 8 := by
      rw [pySlice_length l 4 12 (by omega) (by omega)]
    have hs2 : (pySlice l 12 20).length = 8 := by
      rw [pySlice_length l 12 20 (by omega) (by omega)]
    have hs3 : (pySlice l 20 28).length = 8 := by
      rw [pySlice_length l 20 28 (by omega) (by omega)]
    obtain ⟨x1, y1, s1, d1, he1, hx1, hy1, hsp1, hd1⟩ :=
      decodeTarget_bounds _ hs1 (hmem 4 12)
    obtain ⟨x2, y2, s2, d2, he2, hx2, hy2, hsp2, hd2⟩ :=
      decodeTarget_bounds _ hs2 (hmem 12 20)
    obtain ⟨x3, y3, s3, d3, he3, hx3, hy3, hsp3, hd3⟩ :=
      decodeTarget_bounds _ hs3 (hmem 20 28)
    rw [he1, he2, he3] at hok
    refine ⟨x1, y1, s1, d1, x2, y2, s2, d2, x3, y3, s3, d3, ?_, ?_, ?_⟩
    · injection hok with hbig
      rw [← hbig]
      rfl
    · intro v hv
      simp only [List.mem_cons, List.not_mem_nil, or_false] at hv
      rcases hv with rfl | rfl | rfl | rfl | rfl | rfl | rfl | rfl | rfl <;>
        first
          | exact hx1 | exact hy1 | exact hsp1
          | exact hx2 | exact hy2 | exact hsp2
          | exact hx3 | exact hy3 | exact hsp3
    · intro v hv
      simp only [List.mem_cons, List.not_mem_nil, or_false] at hv
      rcases hv with rfl | rfl | rfl <;> first | exact hd1 | exact hd2 | exact hd3

/-- C10 witness: the all-zero 30-byte telemetry frame is accepted, its
output is the 12-integer all-zero tuple, and the stated bounds hold of it. -/
theorem C10_output_shape_witness :
    (∃ x1 y1 s1 d1 x2 y2 s2 d2 x3 y3 s3 d3,
        ([0, 0, 0, 0, 0, 0, 0, 0, 0, 0, 0, 0] : List Int)
            = [x1, y1, s1, d1, x2, y2, s2, d2, x3, y3, s3, d3]
          ∧ (∀ v ∈ [x1, y1, s1, x2, y2, s2, x3, y3, s3], -32767 ≤ v ∧ v ≤ 32767)
          ∧ (∀ v ∈ [d1, d2, d3], 0 ≤ v ∧ v ≤ 65535))
      ∧ decodeXYSpeed [0x00, 0x80] = 0 ∧ decodeXYSpeed [0x00, 0x00] = 0 :=
  C10_output_shape (REPORT_HEADER ++ List.replicate 24 0 ++ REPORT_TAIL)
    [0, 0, 0, 0, 0, 0, 0, 0, 0, 0, 0, 0] (by decide) (by rfl)

/-- C7: a baud rate outside `POSSIBLE_BAUDRATES` raises `ValueError`
before any I/O (no frame is produced); for each rate in the set, the
frame carries the rate's index in the ordered set as a 2-byte
little-endian command value. -/
theorem C7_baud_rate_domain :
    (∀ b : Nat, b ∉ POSSIBLE_BAUDRATES →
        isValueError (set_serial_port_baud_rate b) = true)
      ∧ (∀ b ∈ POSSIBLE_BAUDRATES,
          set_serial_port_baud_rate b
            = .ok (buildCommand (intToBytes2LE 4) [0xA1, 0x00]
                (intToBytes2LE (POSSIBLE_BAUDRATES.indexOf b))))
      ∧ set_serial_port_baud_rate 9600
          = .ok (buildCommand (intToBytes2LE 4) [0xA1, 0x00] [0, 0])
      ∧ set_serial_port_baud_rate 256000
          = .ok (buildCommand (intToBytes2LE 4) [0xA1, 0x00] [6, 0])
      ∧ set_serial_port_baud_rate 460800
          = .ok (buildCommand (intToBytes2LE 4) [0xA1, 0x00] [7, 0]) := by
  refine ⟨?_, ?_, rfl, rfl, rfl⟩
  · intro b hb
    unfold set_serial_port_baud_rate isValueError
    rw [if_pos hb]
  · intro b hb
    unfold set_serial_port_baud_rate
    rw [if_neg (not_not_intro hb)]

/-- C7 witness: the unsupported rate 12345 is rejected before any I/O, and
the supported rate 115200 is sent with value `03 00` (its index 3). -/
theorem C7_baud_rate_domain_witness :
    isValueError (set_serial_port_baud_rate 12345) = true
      ∧ set_serial_port_baud_rate 115200
          = .ok (buildCommand (intToBytes2LE 4) [0xA1, 0x00]
              (intToBytes2LE (POSSIBLE_BAUDRATES.indexOf 115200))) :=
  ⟨C7_baud_rate_domain.1 12345 (by decide),
   C7_baud_rate_domain.2.1 115200 (by decide)⟩

/-- C8: for every successful response, `read_firmware_version` assembles
`V{type}.{major}.{minor}` from the little-endian signed fields at offsets
[10,12), [12,14) and [14,18). -/
theorem C8_firmware_version (pre : List Nat) (t1 t2 m1 m2 n1 n2 n3 n4 : Nat)
    (rest : List Nat) (hpre : pre.length = 10)
    (hsucc : _get_command_success
      (pre ++ t1 :: t2 :: m1 :: m2 :: n1 :: n2 :: n3 :: n4 :: rest) = true) :
    read_firmware_version (pre ++ t1 :: t2 :: m1 :: m2 :: n1 :: n2 :: n3 :: n4 :: rest)
      = some ("V" ++ toString (signed16LE t1 t2) ++ "." ++ toString (signed16LE m1 m2)
        ++ "." ++ toString (signed32LE n1 n2 n3 n4)) := by
  have e1 : pySlice (pre ++ t1 :: t2 :: m1 :: m2 :: n1 :: n2 :: n3 :: n4 :: rest) 10 12
      = [t1, t2] := by
    have h := pySlice_append pre (t1 :: t2 :: m1 :: m2 :: n1 :: n2 :: n3 :: n4 :: rest) 0 12
    rw [hpre] at h
    norm_num at h
    rw [h]
    rfl
  have e2 : pySlice (pre ++ t1 :: t2 :: m1 :: m2 :: n1 :: n2 :: n3 :: n4 :: rest) 12 14
      = [m1, m2] := by
    have h := pySlice_append pre (t1 :: t2 :: m1 :: m2 :: n1 :: n2 :: n3 :: n4 :: rest) 2 14
    rw [hpre] at h
    norm_num at h
    rw [h]
    rfl
  have e3 : pySlice (pre ++ t1 :: t2 :: m1 :: m2 :: n1 :: n2 :: n3 :: n4 :: rest) 14 18
      = [n1, n2, n3, n4] := by
    have h := pySlice_append pre (t1 :: t2 :: m1 :: m2 :: n1 :: n2 :: n3 :: n4 :: rest) 4 18
    rw [hpre] at h
    norm_num at h
    rw [h]
    rfl
  unfold read_firmware_version
  rw [if_neg (by rw [hsucc]; simp)]
  rw [e1, e2, e3,
    intFromBytesLESigned_pair, intFromBytesLESigned_pair, intFromBytesLESigned_quad]

/-- C8 witness: payload `01 00 | 02 00 | 03 00 00 00` after a success
status yields the string `V1.2.3`. -/
theorem C8_firmware_version_witness :
    read_firmware_version
        ([0, 0, 0, 0, 0, 0, 0, 0, 0, 0] ++ 1 :: 0 :: 2 :: 0 :: 3 :: 0 :: 0 :: 0 :: [])
      = some ("V1.2.3") := by
  rw [C8_firmware_version [0, 0, 0, 0, 0, 0, 0, 0, 0, 0] 1 0 2 0 3 0 0 0 [] rfl
    (by decide)]
  rfl

/-- C9: whenever any of the 13 integer arguments of `set_zone_filtering`
is negative, the `f"{value:04x}"` construction puts a `-` sign in the hex
string, `bytes.fromhex` raises `ValueError`, and no frame is emitted. -/
theorem C9_negative_field_raises
    (mode r1x1 r1y1 r1x2 r1y2 r2x1 r2y1 r2x2 r2y2 r3x1 r3y1 r3x2 r3y2 : Int)
    (hneg : mode < 0 ∨ r1x1 < 0 ∨ r1y1 < 0 ∨ r1x2 < 0 ∨ r1y2 < 0 ∨ r2x1 < 0
      ∨ r2y1 < 0 ∨ r2x2 < 0 ∨ r2y2 < 0 ∨ r3x1 < 0 ∨ r3y1 < 0 ∨ r3x2 < 0
      ∨ r3y2 < 0) :
    set_zone_filtering mode r1x1 r1y1 r1x2 r1y2 r2x1 r2y1 r2x2 r2y2 r3x1 r3y1 r3x2 r3y2
      = none := by
  unfold set_zone_filtering
  have hval : setZoneFilteringValue
      [mode, r1x1, r1y1, r1x2, r1y2, r2x1, r2y1, r2x2, r2y2, r3x1, r3y1, r3x2, r3y2]
      = none := by
    rcases hneg with h|h|h|h|h|h|h|h|h|h|h|h|h <;>
      exact setZoneValue_neg _ _ (by simp) h
  rw [hval]
  rfl

/-- C9 witness: a negative zone coordinate (z1 = (0, 0, -1000, 1000))
makes `set_zone_filtering` raise before emitting any frame. -/
theorem C9_negative_field_raises_witness :
    set_zone_filtering 2 0 0 (-1000) 1000 0 0 0 0 0 0 0 0 = none :=
  C9_negative_field_raises 2 0 0 (-1000) 1000 0 0 0 0 0 0 0 0 (by norm_num)

/-- C3 (code-bug evidence): the claimed round trip fails on the code. With
the claim's own field values — mode 1, zone 1 = (0, 0, -1000, 1000), zones
2 and 3 zero — the hex value construction raises `ValueError` (the `-`
sign of `-1000` is not a hex digit), so no 26-byte value exists at all;
and even in the all-nonnegative variant (mode 1, everything else 0) the
`f"{v:04x}"` encoding is big-endian per field, so the query-response
decode returns 256 where mode 1 was encoded: the 13 integers are not
reproduced. -/
theorem C3_round_trip_fails :
    set_zone_filtering 1 0 0 (-1000) 1000 0 0 0 0 0 0 0 0 = none
      ∧ setZoneFilteringValue [1, 0, 0, 0, 0, 0, 0, 0, 0, 0, 0, 0, 0]
          = some (0 :: 1 :: List.replicate 24 0)
      ∧ query_zone_filtering (List.replicate 10 0 ++ (0 :: 1 :: List.replicate 24 0))
          = some (256 :: List.replicate 12 0)
      ∧ decide ((256 :: List.replicate 12 0 : List Int)
          = [1, 0, 0, 0, 0, 0, 0, 0, 0, 0, 0, 0, 0]) = false := by
  refine ⟨rfl, rfl, rfl, by decide⟩

/-- C4 (code-bug evidence): re-parsing the emitted frames, the 2-byte
little-endian length field equals `len(command_word) + len(command_value)`
for every named builder except `set_zone_filtering`, which emits length
field 26 while its word + value span 28 bytes. -/
theorem C4_length_field_invariant :
    (lengthField enable_configuration_mode_frame = wordValueLen enable_configuration_mode_frame
      ∧ lengthField end_configuration_mode_frame = wordValueLen end_configuration_mode_frame
      ∧ lengthField single_target_tracking_frame = wordValueLen single_target_tracking_frame
      ∧ lengthField multi_target_tracking_frame = wordValueLen multi_target_tracking_frame
      ∧ lengthField query_target_tracking_frame = wordValueLen query_target_tracking_frame
      ∧ lengthField read_firmware_version_frame = wordValueLen read_firmware_version_frame
      ∧ set_serial_port_baud_rate 256000
          = .ok (buildCommand (intToBytes2LE 4) [0xA1, 0x00] [6, 0])
      ∧ lengthField (buildCommand (intToBytes2LE 4) [0xA1, 0x00] [6, 0])
          = wordValueLen (buildCommand (intToBytes2LE 4) [0xA1, 0x00] [6, 0])
      ∧ lengthField restore_factory_settings_frame = wordValueLen restore_factory_settings_frame
      ∧ lengthField restart_module_frame = wordValueLen restart_module_frame
      ∧ lengthField (bluetooth_setup_frame true) = wordValueLen (bluetooth_setup_frame true)
      ∧ lengthField (bluetooth_setup_frame false) = wordValueLen (bluetooth_setup_frame false)
      ∧ lengthField get_mac_address_frame = wordValueLen get_mac_address_frame
      ∧ lengthField query_zone_filtering_frame = wordValueLen query_zone_filtering_frame)
      ∧ (set_zone_filtering 0 0 0 0 0 0 0 0 0 0 0 0 0
          = some (buildCommand (intToBytes2LE 26) [0xC2, 0x00] (List.replicate 26 0))
        ∧ lengthField (buildCommand (intToBytes2LE 26) [0xC2, 0x00] (List.replicate 26 0)) = 26
        ∧ wordValueLen (buildCommand (intToBytes2LE 26) [0xC2, 0x00] (List.replicate 26 0)) = 28) := by
  refine ⟨⟨rfl, rfl, rfl, rfl, rfl, rfl, rfl, rfl, rfl, rfl, rfl, rfl, rfl, rfl⟩,
    rfl, rfl, rfl⟩

end LD2450
